import Mathlib

/-!
# Verification of the `pybuildinglink` authentication and request layer

This file is a shallow embedding, in Lean 4, of the parts of the
`pybuildinglink` library that its specification makes claims about:

* `pybuildinglink/auth.py`: the token store (`BuildingLinkAuth`), the
  validity check `is_token_valid`, the token refresher
  `async_refresh_token`, the credential login flow
  `async_login_with_credentials`, the token resolver
  `async_get_access_token`, and the hidden-form-field scraper
  `_get_hidden_inputs`;
* `pybuildinglink/client.py`: client construction
  (`BuildingLinkClient.__init__`), the authenticated request layer
  `_request`, `async_set_property` and `async_get_contacts`;
* `pybuildinglink/exceptions.py`: the exception hierarchy, collapsed into
  the inductive `PyError`.

Network I/O is modelled by explicit environment values: the response the
token endpoint would give (`RefreshHttp`), the outcome of the multi-hop
HTML login sequence (`LoginEnv`, which abstracts the five HTTP hops of the
scraping flow into which extraction path yielded which token), and the one
or two responses a call through `_request` observes (`ReqEnv`).  Mutable
object state (`self._access_token` and friends) is passed explicitly as
`AuthState` / `ClientState`; every operation returns its updated state, and
`_request` additionally returns the list of HTTP requests it issued, so
that frame properties about headers and query parameters can be stated.
Python truthiness of optional strings is modelled by `pyTruthy`; `time.time()`
is an explicit integer parameter `now`.
-/

/-- Python truthiness of an optional string: `None` and the empty string are
falsy, every other string is truthy. -/
def pyTruthy : Option String → Bool
  | none => false
  | some s => !s.isEmpty

/-- Model of a Python `dict` keyed by strings: an association list in which
assignment to an existing key replaces the binding in place. -/
def dictInsert (k : String) (v : α) : List (String × α) → List (String × α)
  | [] => [(k, v)]
  | (k1, v1) :: rest => if k1 = k then (k, v) :: rest else (k1, v1) :: dictInsert k v rest

/-- Lookup in the association-list model of a Python `dict`. -/
def dictLookup (k : String) : List (String × α) → Option α
  | [] => none
  | (k1, v) :: rest => if k1 = k then some v else dictLookup k rest

/-- The exceptions of `pybuildinglink/exceptions.py` that the embedded code
can raise, plus Python `KeyError` for missing dictionary keys. -/
inductive PyError
  | authError (msg : String)
  | apiError (status : Nat) (message : String)
  | keyError (key : String)
deriving DecidableEq, Repr

/-- The mutable state of a `BuildingLinkAuth` object: the constructor
arguments plus the token store (`_access_token`, `_token_expiry`). -/
structure AuthState where
  username : Option String
  password : Option String
  refresh_token : Option String
  access_token : Option String
  token_expiry : Int
deriving DecidableEq, Repr

/-- Embedding of `BuildingLinkAuth.__init__`: raises `AuthenticationError` unless a
(truthy) username or refresh token is given; stores the credentials and
starts with no access token and expiry `0`. -/
def BuildingLinkAuth.init (username password refresh_token : Option String) :
    Except PyError AuthState :=
  if !pyTruthy username && !pyTruthy refresh_token then
    Except.error (PyError.authError "Either username/password or refresh_token must be provided")
  else
    Except.ok { username := username, password := password, refresh_token := refresh_token,
                access_token := none, token_expiry := 0 }

/-- Embedding of `BuildingLinkAuth.is_token_valid`: an access token is stored (`is not
None`) and the current time is below the expiry instant minus a 30 second
buffer. -/
def BuildingLinkAuth.is_token_valid (now : Int) (s : AuthState) : Bool :=
  s.access_token.isSome && decide (now < s.token_expiry - 30)

/-- The JSON body the token endpoint returns on a refresh grant; each field
is `Option` because the corresponding JSON key may be absent. -/
structure TokenResponse where
  access_token : Option String
  refresh_token : Option String
  expires_in : Option Int
deriving DecidableEq, Repr

/-- Environment for one POST to the token endpoint: either an HTTP response
(status, parsed JSON body, raw text) or a transport failure
(`aiohttp.ClientError`). -/
inductive RefreshHttp
  | response (status : Nat) (body : TokenResponse) (text : String)
  | netError (msg : String)
deriving DecidableEq, Repr

/-- Embedding of `BuildingLinkAuth.async_refresh_token`: raises `AuthenticationError` if
no refresh token is stored, on a non-200 status, or on a transport error;
on a 200 response reads `result["access_token"]` (a `KeyError` if absent),
then updates the token store: access token from the response, refresh token
from the response when present (else kept), expiry `now` plus `expires_in`
defaulting to 900.  Returns the response dict and the updated state; on any
raise the state is the unchanged input state. -/
def BuildingLinkAuth.async_refresh_token (now : Int) (s : AuthState) (http : RefreshHttp) :
    Except PyError TokenResponse × AuthState :=
  if !pyTruthy s.refresh_token then
    (Except.error (PyError.authError "No refresh token available"), s)
  else
    match http with
    | RefreshHttp.netError msg =>
        (Except.error (PyError.authError ("Token refresh request failed: " ++ msg)), s)
    | RefreshHttp.response status body text =>
        if status ≠ 200 then
          (Except.error (PyError.authError ("Token refresh failed: " ++ text)), s)
        else
          match body.access_token with
          | none => (Except.error (PyError.keyError "access_token"), s)
          | some tok =>
              (Except.ok body,
                { s with
                  access_token := some tok,
                  refresh_token := body.refresh_token <|> s.refresh_token,
                  token_expiry := now + body.expires_in.getD 900 })

/-- Environment for one run of the multi-hop HTML login flow of
`async_login_with_credentials`, abstracting its five HTTP hops into the
extraction outcome: `fail` covers every failure mode that raises
`AuthenticationError` (missing redirect URL, invalid credentials, no
callback form, transport errors); `formToken` means the token was found in
the OIDC callback form fields; `sessionToken tok rt` means the flow fell
back to `_try_token_from_session`, whose 200 response carried access token
`tok` and refresh token `rt` (that helper overwrites the stored refresh
token with `rt` before the access token is checked). -/
inductive LoginEnv
  | fail (msg : String)
  | formToken (tok : String)
  | sessionToken (tok : Option String) (rt : Option String)
deriving DecidableEq, Repr

/-- Embedding of `BuildingLinkAuth.async_login_with_credentials`: requires truthy
username and password; on success stores the extracted token with a fixed
900 second expiry and returns it; a falsy extracted token raises
`AuthenticationError` ("could not extract access token").  On the
`_try_token_from_session` path the stored refresh token is overwritten even
when the access token then turns out falsy. -/
def BuildingLinkAuth.async_login_with_credentials (now : Int) (s : AuthState) (env : LoginEnv) :
    Except PyError String × AuthState :=
  if !(pyTruthy s.username && pyTruthy s.password) then
    (Except.error (PyError.authError "Username and password are required for login"), s)
  else
    match env with
    | LoginEnv.fail msg => (Except.error (PyError.authError msg), s)
    | LoginEnv.formToken tok =>
        if tok.isEmpty then
          (Except.error (PyError.authError "Login succeeded but could not extract access token"), s)
        else
          (Except.ok tok, { s with access_token := some tok, token_expiry := now + 900 })
    | LoginEnv.sessionToken tok rt =>
        let s1 := { s with refresh_token := rt }
        match tok with
        | none =>
            (Except.error (PyError.authError "Login succeeded but could not extract access token"), s1)
        | some t =>
            if t.isEmpty then
              (Except.error (PyError.authError "Login succeeded but could not extract access token"), s1)
            else
              (Except.ok t, { s1 with access_token := some t, token_expiry := now + 900 })

/-- The tail of `async_get_access_token` after the refresh attempt: fall
back to the credential login flow when username and password are both
truthy, otherwise raise `AuthenticationError`. -/
def BuildingLinkAuth.fallbackLogin (now : Int) (s : AuthState) (login : LoginEnv) :
    Except PyError String × AuthState :=
  if pyTruthy s.username && pyTruthy s.password then
    BuildingLinkAuth.async_login_with_credentials now s login
  else
    (Except.error (PyError.authError "No valid authentication method available"), s)

/-- Embedding of `BuildingLinkAuth.async_get_access_token`: return the stored token if
still valid; else, if a refresh token is stored, attempt a refresh — on
success return the new access token if truthy, on `AuthenticationError`
fall through (any other exception, e.g. `KeyError`, propagates); finally
fall back to the credential login flow or raise. -/
def BuildingLinkAuth.async_get_access_token (now : Int) (s : AuthState)
    (http : RefreshHttp) (login : LoginEnv) : Except PyError String × AuthState :=
  if BuildingLinkAuth.is_token_valid now s then
    (Except.ok (s.access_token.getD ""), s)
  else if pyTruthy s.refresh_token then
    match BuildingLinkAuth.async_refresh_token now s http with
    | (Except.ok _, s1) =>
        if pyTruthy s1.access_token then
          (Except.ok (s1.access_token.getD ""), s1)
        else
          BuildingLinkAuth.fallbackLogin now s1 login
    | (Except.error (PyError.authError _), s1) =>
        BuildingLinkAuth.fallbackLogin now s1 login
    | (Except.error e, s1) => (Except.error e, s1)
  else
    BuildingLinkAuth.fallbackLogin now s login

/-- Constant `LEGACY_HOST` from `pybuildinglink/const.py`. -/
def LEGACY_HOST : String := "https://www.buildinglink.com"

/-- Constant `USER_AGENT` from `pybuildinglink/const.py`. -/
def USER_AGENT : String :=
  "ResidentApp/3.9.31 (com.buildinglink.BuildingLink; build:796; iOS 26.3) Alamofire/5.10.2"

/-- The mutable state of a `BuildingLinkClient`: the auth manager, the
device id, and the property context set by `async_set_property`. -/
structure ClientState where
  auth : AuthState
  device_id : String
  property_id : Option String
  property_legacy_id : Option Int
  user_id : Option String
deriving DecidableEq, Repr

/-- Embedding of `BuildingLinkClient.__init__`: passes `refresh_token` positionally to
`BuildingLinkAuth` — whose first parameter is `username` — and uses the
given device id when truthy, else a generated UUID string (the `generated`
parameter models `str(uuid.uuid4())`). -/
def BuildingLinkClient.init (refresh_token : String) (device_id : Option String)
    (generated : String) : Except PyError ClientState :=
  match BuildingLinkAuth.init (some refresh_token) none none with
  | Except.error e => Except.error e
  | Except.ok a =>
      Except.ok { auth := a,
                  device_id := if pyTruthy device_id then device_id.getD "" else generated,
                  property_id := none, property_legacy_id := none, user_id := none }

/-- The `BuildingLinkClient.refresh_token` property: delegates to the auth
manager's stored refresh token (annotated `str` in the source, but the
value may be `None`). -/
def BuildingLinkClient.refresh_token (st : ClientState) : Option String :=
  st.auth.refresh_token

/-- Model of a parsed JSON response body, at the granularity the client
inspects it: a JSON array of (abstract) elements, or any non-array value. -/
inductive Json
  | arr (elems : List String)
  | obj (payload : String)
deriving DecidableEq, Repr

/-- One HTTP response observed by a `session.request` call inside
`_request`: status code, parsed JSON body, raw text body. -/
structure HttpResponse where
  status : Nat
  json : Json
  text : String
deriving DecidableEq, Repr

/-- One HTTP request issued by `_request`, recording the header and query
parameter dicts it was sent with. -/
structure Request where
  method : String
  url : String
  headers : List (String × String)
  params : List (String × String)
deriving DecidableEq, Repr

/-- Environment for one call through `_request`: the response to the first
request, the response to the retry (consulted only after a 401), the token
endpoint response and login outcome for each of the at most two
`async_get_access_token` calls, and the generated `X-Correlation-Id`. -/
structure ReqEnv where
  resp1 : HttpResponse
  resp2 : HttpResponse
  refreshHttp1 : RefreshHttp
  refreshHttp2 : RefreshHttp
  login1 : LoginEnv
  login2 : LoginEnv
  corrId : String
deriving DecidableEq, Repr

/-- Embedding of `BuildingLinkClient._request`: obtains an access token, sends the
request with a `Bearer` header and a `device-id` query parameter, and on a
401 re-resolves the token via `async_get_access_token` and retries once;
any response with status ≥ 400 (the first one if not 401, else the
retry) raises `APIError` with that status and text; otherwise the parsed
JSON body is returned.  Besides the result it returns the final auth state
and the list of HTTP requests actually issued. -/
def BuildingLinkClient._request (now : Int) (st : ClientState) (env : ReqEnv)
    (method url : String) (params : List (String × String)) :
    Except PyError Json × AuthState × List Request :=
  match BuildingLinkAuth.async_get_access_token now st.auth env.refreshHttp1 env.login1 with
  | (Except.error e, a1) => (Except.error e, a1, [])
  | (Except.ok tok1, a1) =>
      let headers1 := [("Authorization", "Bearer " ++ tok1), ("Accept", "application/json"),
                       ("User-Agent", USER_AGENT), ("X-Correlation-Id", env.corrId)]
      let params1 := dictInsert "device-id" st.device_id params
      let req1 : Request := { method := method, url := url, headers := headers1, params := params1 }
      if env.resp1.status = 401 then
        match BuildingLinkAuth.async_get_access_token now a1 env.refreshHttp2 env.login2 with
        | (Except.error e, a2) => (Except.error e, a2, [req1])
        | (Except.ok tok2, a2) =>
            let headers2 := dictInsert "Authorization" ("Bearer " ++ tok2) headers1
            let req2 : Request := { method := method, url := url, headers := headers2, params := params1 }
            if env.resp2.status ≥ 400 then
              (Except.error (PyError.apiError env.resp2.status env.resp2.text), a2, [req1, req2])
            else
              (Except.ok env.resp2.json, a2, [req1, req2])
      else if env.resp1.status ≥ 400 then
        (Except.error (PyError.apiError env.resp1.status env.resp1.text), a1, [req1])
      else
        (Except.ok env.resp1.json, a1, [req1])

/-- Embedding of `BuildingLinkClient.async_set_property`: stores the active property
context for subsequent calls. -/
def BuildingLinkClient.async_set_property (st : ClientState) (property_id : String)
    (legacy_id : Int) (user_id : Option String) : ClientState :=
  { st with property_id := some property_id, property_legacy_id := some legacy_id,
            user_id := user_id }

/-- Embedding of `BuildingLinkClient.async_get_contacts`: returns the empty list at once
when the property id or user id is falsy; otherwise issues a GET through
`_request` against the legacy contacts endpoint and returns the elements of
the JSON array (or the empty list for a non-array body). -/
def BuildingLinkClient.async_get_contacts (now : Int) (st : ClientState) (env : ReqEnv) :
    Except PyError (List String) × AuthState × List Request :=
  if !pyTruthy st.property_id || !pyTruthy st.user_id then
    (Except.ok [], st.auth, [])
  else
    let url := LEGACY_HOST ++ "/services/MobileLinkResident1_7.svc/rest/Buildings/"
                 ++ st.property_id.getD "" ++ "/V2/Contacts"
    let params := [("format", "json"), ("t", "1"), ("l", st.user_id.getD "")]
    match BuildingLinkClient._request now st env "GET" url params with
    | (Except.error e, a, tr) => (Except.error e, a, tr)
    | (Except.ok j, a, tr) =>
        match j with
        | Json.arr elems => (Except.ok elems, a, tr)
        | Json.obj _ => (Except.ok [], a, tr)

/-- An HTML `input` element as `lxml` exposes it: its attribute dict. -/
structure InputEl where
  attrs : List (String × String)
deriving DecidableEq, Repr

/-- A parsed HTML document, at the granularity `_get_hidden_inputs`
inspects it: the `input` elements nested inside `form` elements, in
document order. -/
structure HtmlDoc where
  formInputs : List InputEl
deriving DecidableEq, Repr

/-- The XPath query of `_get_hidden_inputs`, selecting the form inputs
whose `type` attribute is `hidden`. -/
def xpathHiddenFormInputs (d : HtmlDoc) : List InputEl :=
  d.formInputs.filter fun el => dictLookup "type" el.attrs == some "hidden"

/-- The body of the dict comprehension of `_get_hidden_inputs`, run over
the selected elements in document order: an element without a `name`
attribute is skipped by the comprehension's guard; for a kept element,
`el.attrib["value"]` raises `KeyError` when the `value` attribute is
absent, and otherwise the name/value binding is added to the dict
(replacing an earlier binding of the same name). -/
def hiddenFold : List InputEl → List (String × String) → Except PyError (List (String × String))
  | [], acc => Except.ok acc
  | el :: rest, acc =>
      match dictLookup "name" el.attrs with
      | none => hiddenFold rest acc
      | some n =>
          match dictLookup "value" el.attrs with
          | none => Except.error (PyError.keyError "value")
          | some v => hiddenFold rest (dictInsert n v acc)

/-- Embedding of `_get_hidden_inputs` from `pybuildinglink/auth.py`: the dict
comprehension over the hidden form inputs, starting from the empty dict. -/
def _get_hidden_inputs (d : HtmlDoc) : Except PyError (List (String × String)) :=
  hiddenFold (xpathHiddenFormInputs d) []

/-- The name/value pair an input element contributes to the scraped dict,
when it carries both a `name` and a `value` attribute. -/
def pickNamed (el : InputEl) : Option (String × String) :=
  match dictLookup "name" el.attrs, dictLookup "value" el.attrs with
  | some n, some v => some (n, v)
  | _, _ => none

/-- The name/value pairs `_get_hidden_inputs` keeps: hidden form inputs
that carry a `name` attribute, paired with their `value` attribute. -/
def hiddenPairs (d : HtmlDoc) : List (String × String) :=
  (xpathHiddenFormInputs d).filterMap pickNamed

/-! ## Lemmas about the dict model -/

theorem dictLookup_dictInsert_self (k : String) (v : α) (d : List (String × α)) :
    dictLookup k (dictInsert k v d) = some v := by
  induction d with
  | nil => simp [dictInsert, dictLookup]
  | cons p rest ih =>
      obtain ⟨k1, v1⟩ := p
      by_cases h : k1 = k <;> simp [dictInsert, dictLookup, h, ih]

theorem dictLookup_dictInsert_ne (k1 k : String) (v : α) (d : List (String × α))
    (h : k1 ≠ k) : dictLookup k1 (dictInsert k v d) = dictLookup k1 d := by
  induction d with
  | nil => simp [dictInsert, dictLookup, Ne.symm h]
  | cons p rest ih =>
      obtain ⟨k2, v2⟩ := p
      by_cases h2 : k2 = k
      · subst h2
        simp [dictInsert, dictLookup, Ne.symm h]
      · by_cases h3 : k2 = k1
        · subst h3
          simp [dictInsert, dictLookup, h2, h]
        · simp [dictInsert, dictLookup, h2, h3, ih]

/-! ## Lemmas about the token resolver -/

/-- While the stored token passes the local validity check,
`async_get_access_token` returns it unchanged, touches no state, and
consults neither the token endpoint nor the login flow. -/
theorem get_access_token_of_valid (now : Int) (s : AuthState)
    (http : RefreshHttp) (login : LoginEnv)
    (h : BuildingLinkAuth.is_token_valid now s = true) :
    BuildingLinkAuth.async_get_access_token now s http login
      = (Except.ok (s.access_token.getD ""), s) := by
  simp [BuildingLinkAuth.async_get_access_token, h]

/-! ## Claims -/

/-- C5: `BuildingLinkAuth.is_token_valid` holds exactly when an access
token is stored and the current time is strictly below the stored expiry
minus the 30-second buffer; in particular it is false whenever no access
token is stored, regardless of the expiry value. -/
theorem c5_is_token_valid_charact (now : Int) (s : AuthState) :
    (BuildingLinkAuth.is_token_valid now s = true ↔
      (∃ t, s.access_token = some t) ∧ now < s.token_expiry - 30) ∧
    (s.access_token = none → BuildingLinkAuth.is_token_valid now s = false) := by
  constructor
  · simp [BuildingLinkAuth.is_token_valid, Option.isSome_iff_exists]
  · intro h
    simp [BuildingLinkAuth.is_token_valid, h]

/-- Witness for C5 at a concrete token store. -/
theorem c5_is_token_valid_charact_witness :
    BuildingLinkAuth.is_token_valid 0
      { username := none, password := none, refresh_token := none,
        access_token := some "tok", token_expiry := 100 } = true :=
  (c5_is_token_valid_charact 0 _).1.mpr ⟨⟨"tok", rfl⟩, by decide⟩

/-- C4: `BuildingLinkClient.__init__` passes the refresh token positionally
into `BuildingLinkAuth`, whose first parameter is `username`; hence every
freshly constructed client stores the given value as the username, stores
no refresh token and no password, and the client's `refresh_token` property
returns `None`. -/
theorem c4_client_init_positional_bug (r : String) (d : Option String) (g : String)
    (h : r ≠ "") :
    ∃ st, BuildingLinkClient.init r d g = Except.ok st ∧
      st.auth.username = some r ∧ st.auth.password = none ∧
      st.auth.refresh_token = none ∧ BuildingLinkClient.refresh_token st = none := by
  have hne : pyTruthy (some r) = true := by
    have hb : r.isEmpty = false := by
      cases hb : r.isEmpty
      · rfl
      · exact absurd ((String.isEmpty_iff r).mp hb) h
    simp [pyTruthy, hb]
  have hinit : BuildingLinkClient.init r d g = Except.ok
      { auth := { username := some r, password := none, refresh_token := none,
                  access_token := none, token_expiry := 0 },
        device_id := if pyTruthy d then d.getD "" else g,
        property_id := none, property_legacy_id := none, user_id := none } := by
    simp [BuildingLinkClient.init, BuildingLinkAuth.init, hne]
  exact ⟨_, hinit, rfl, rfl, rfl, rfl⟩

/-- Witness for C4 at a concrete refresh token. -/
theorem c4_client_init_positional_bug_witness :
    ∃ st, BuildingLinkClient.init "my-refresh" none "gen-id" = Except.ok st ∧
      st.auth.username = some "my-refresh" ∧ st.auth.password = none ∧
      st.auth.refresh_token = none ∧ BuildingLinkClient.refresh_token st = none :=
  c4_client_init_positional_bug "my-refresh" none "gen-id" (by decide)

/-- C6: on a 200 refresh response, `async_refresh_token` stores the
response's access token, takes the response's refresh token when present
and keeps the old one otherwise, and sets the expiry to now plus
`expires_in`, defaulting to 900 seconds when absent; credentials are
untouched. -/
theorem c6_refresh_success_updates (now : Int) (s : AuthState) (body : TokenResponse)
    (text tok : String)
    (hrt : pyTruthy s.refresh_token = true) (htok : body.access_token = some tok) :
    ∃ s1, BuildingLinkAuth.async_refresh_token now s (RefreshHttp.response 200 body text)
        = (Except.ok body, s1) ∧
      s1.access_token = some tok ∧
      (∀ rt, body.refresh_token = some rt → s1.refresh_token = some rt) ∧
      (body.refresh_token = none → s1.refresh_token = s.refresh_token) ∧
      (∀ e, body.expires_in = some e → s1.token_expiry = now + e) ∧
      (body.expires_in = none → s1.token_expiry = now + 900) ∧
      s1.username = s.username ∧ s1.password = s.password := by
  refine ⟨⟨s.username, s.password, body.refresh_token <|> s.refresh_token, some tok,
    now + body.expires_in.getD 900⟩, ?_, rfl, ?_, ?_, ?_, ?_, rfl, rfl⟩
  · simp [BuildingLinkAuth.async_refresh_token, hrt, htok]
  · intro rt h
    simp [h]
  · intro h
    simp [h]
  · intro e h
    simp [h]
  · intro h
    simp [h]

/-- Witness for C6 at a concrete refresh exchange. -/
theorem c6_refresh_success_updates_witness :
    ∃ s1, BuildingLinkAuth.async_refresh_token 0
        { username := none, password := none, refresh_token := some "R",
          access_token := none, token_expiry := 0 }
        (RefreshHttp.response 200
          { access_token := some "T", refresh_token := some "R2", expires_in := some 60 } "ok")
        = (Except.ok { access_token := some "T", refresh_token := some "R2",
                       expires_in := some 60 }, s1) ∧
      s1.access_token = some "T" ∧
      (∀ rt, (some "R2" : Option String) = some rt → s1.refresh_token = some rt) ∧
      ((some "R2" : Option String) = none → s1.refresh_token = some "R") ∧
      (∀ e, (some 60 : Option Int) = some e → s1.token_expiry = 0 + e) ∧
      ((some 60 : Option Int) = none → s1.token_expiry = 0 + 900) ∧
      s1.username = none ∧ s1.password = none :=
  c6_refresh_success_updates 0
    { username := none, password := none, refresh_token := some "R",
      access_token := none, token_expiry := 0 }
    { access_token := some "T", refresh_token := some "R2", expires_in := some 60 }
    "ok" "T" (by decide) rfl

/-- C7: `async_refresh_token` raises `AuthenticationError` when no refresh
token is stored, when the endpoint answers with a status other than 200,
and when the HTTP call fails; in each case the returned state is the
unchanged input state (token store untouched). -/
theorem c7_refresh_error_cases (now : Int) (s : AuthState) :
    (pyTruthy s.refresh_token = false →
      ∀ http, ∃ m, BuildingLinkAuth.async_refresh_token now s http
          = (Except.error (PyError.authError m), s)) ∧
    (∀ status body text, pyTruthy s.refresh_token = true → status ≠ 200 →
      ∃ m, BuildingLinkAuth.async_refresh_token now s (RefreshHttp.response status body text)
          = (Except.error (PyError.authError m), s)) ∧
    (∀ msg, pyTruthy s.refresh_token = true →
      ∃ m, BuildingLinkAuth.async_refresh_token now s (RefreshHttp.netError msg)
          = (Except.error (PyError.authError m), s)) := by
  refine ⟨?_, ?_, ?_⟩
  · intro h http
    exact ⟨"No refresh token available", by simp [BuildingLinkAuth.async_refresh_token, h]⟩
  · intro status body text h hs
    exact ⟨"Token refresh failed: " ++ text,
      by simp [BuildingLinkAuth.async_refresh_token, h, hs]⟩
  · intro msg h
    exact ⟨"Token refresh request failed: " ++ msg,
      by simp [BuildingLinkAuth.async_refresh_token, h]⟩

/-- Witness for C7: a missing refresh token, a 400 status, and a transport
failure all raise with the store unchanged. -/
theorem c7_refresh_error_cases_witness :
    (∃ m, BuildingLinkAuth.async_refresh_token 0
        { username := some "u", password := none, refresh_token := none,
          access_token := some "A", token_expiry := 7 }
        (RefreshHttp.netError "down")
        = (Except.error (PyError.authError m),
           { username := some "u", password := none, refresh_token := none,
             access_token := some "A", token_expiry := 7 })) ∧
    (∃ m, BuildingLinkAuth.async_refresh_token 0
        { username := none, password := none, refresh_token := some "R",
          access_token := some "A", token_expiry := 7 }
        (RefreshHttp.response 400
          { access_token := some "T", refresh_token := none, expires_in := none } "bad")
        = (Except.error (PyError.authError m),
           { username := none, password := none, refresh_token := some "R",
             access_token := some "A", token_expiry := 7 })) ∧
    (∃ m, BuildingLinkAuth.async_refresh_token 0
        { username := none, password := none, refresh_token := some "R",
          access_token := some "A", token_expiry := 7 }
        (RefreshHttp.netError "down")
        = (Except.error (PyError.authError m),
           { username := none, password := none, refresh_token := some "R",
             access_token := some "A", token_expiry := 7 })) :=
  ⟨(c7_refresh_error_cases 0 _).1 (by decide) (RefreshHttp.netError "down"),
   (c7_refresh_error_cases 0 _).2.1 400 _ "bad" (by decide) (by decide),
   (c7_refresh_error_cases 0 _).2.2 "down" (by decide)⟩

/-- C10: `async_get_contacts` returns the empty list and issues no HTTP
request whenever the property context is incomplete: whenever the stored
property id or user id is missing, in particular for any state produced by
`async_set_property` without a user id. -/
theorem c10_contacts_requires_context (now : Int) (st : ClientState) (env : ReqEnv) :
    (st.property_id = none ∨ st.user_id = none →
      BuildingLinkClient.async_get_contacts now st env = (Except.ok [], st.auth, [])) ∧
    (∀ pid lid, BuildingLinkClient.async_get_contacts now
        (BuildingLinkClient.async_set_property st pid lid none) env
      = (Except.ok [], (BuildingLinkClient.async_set_property st pid lid none).auth, [])) := by
  constructor
  · intro h
    rcases h with h | h <;>
      simp [BuildingLinkClient.async_get_contacts, h, pyTruthy]
  · intro pid lid
    simp [BuildingLinkClient.async_get_contacts, BuildingLinkClient.async_set_property, pyTruthy]

/-- The auth state of the C1 scenario: a locally valid cached token. -/
def c1Auth : AuthState :=
  { username := some "r", password := none, refresh_token := none,
    access_token := some "TOK", token_expiry := 1000 }

/-- The client state of the C1 scenario. -/
def c1State : ClientState :=
  { auth := c1Auth, device_id := "dev", property_id := none,
    property_legacy_id := none, user_id := none }

/-- The request environment of the C1 scenario: the first response is a
401; the token endpoint and login flow would both fail if consulted. -/
def c1Env : ReqEnv :=
  { resp1 := { status := 401, json := Json.obj "b1", text := "unauthorized" },
    resp2 := { status := 200, json := Json.obj "b2", text := "ok" },
    refreshHttp1 := RefreshHttp.netError "unused",
    refreshHttp2 := RefreshHttp.netError "unused",
    login1 := LoginEnv.fail "unused", login2 := LoginEnv.fail "unused",
    corrId := "cid" }

/-- C1 (counterexample): with a locally valid cached token `TOK`, a 401 on
the first request leads to a retry whose bearer token is the very same
cached `TOK` — no token refresh is forced (the auth state, including the
token store, is unchanged after the call, and the environment offers no
successful refresh). -/
theorem c1_counterexample :
    BuildingLinkAuth.is_token_valid 0 c1Auth = true ∧
    c1Env.resp1.status = 401 ∧
    (BuildingLinkClient._request 0 c1State c1Env "GET" "https://api.test/x" []).2.2.map
        (fun req => dictLookup "Authorization" req.headers)
      = [some "Bearer TOK", some "Bearer TOK"] ∧
    (BuildingLinkClient._request 0 c1State c1Env "GET" "https://api.test/x" []).2.1
      = c1Auth := by
  refine ⟨rfl, rfl, ?_, ?_⟩ <;> rfl

/-- C1 (amended): when the first response is a 401, the retry's bearer
token is whatever a second call to `async_get_access_token` returns on the
intermediate auth state — not necessarily a fresh token: whenever that
state's stored token is still locally valid, the retry reuses exactly the
cached token and the state is left unchanged. -/
theorem c1_retry_token_via_resolver (now : Int) (st : ClientState) (env : ReqEnv)
    (method url : String) (params : List (String × String))
    (tok1 tok2 : String) (a1 a2 : AuthState)
    (h1 : BuildingLinkAuth.async_get_access_token now st.auth env.refreshHttp1 env.login1
            = (Except.ok tok1, a1))
    (h401 : env.resp1.status = 401)
    (h2 : BuildingLinkAuth.async_get_access_token now a1 env.refreshHttp2 env.login2
            = (Except.ok tok2, a2)) :
    ∃ req1 req2,
      (BuildingLinkClient._request now st env method url params).2.2 = [req1, req2] ∧
      dictLookup "Authorization" req1.headers = some ("Bearer " ++ tok1) ∧
      dictLookup "Authorization" req2.headers = some ("Bearer " ++ tok2) ∧
      (BuildingLinkAuth.is_token_valid now a1 = true →
        tok2 = a1.access_token.getD "" ∧ a2 = a1) := by
  have hvalid : BuildingLinkAuth.is_token_valid now a1 = true →
      tok2 = a1.access_token.getD "" ∧ a2 = a1 := by
    intro hv
    have h3 := (get_access_token_of_valid now a1 env.refreshHttp2 env.login2 hv).symm.trans h2
    simp only [Prod.mk.injEq, Except.ok.injEq] at h3
    exact ⟨h3.1.symm, h3.2.symm⟩
  have heq : (BuildingLinkClient._request now st env method url params).2.2
      = [{ method := method, url := url,
           headers := [("Authorization", "Bearer " ++ tok1), ("Accept", "application/json"),
                       ("User-Agent", USER_AGENT), ("X-Correlation-Id", env.corrId)],
           params := dictInsert "device-id" st.device_id params },
         { method := method, url := url,
           headers := dictInsert "Authorization" ("Bearer " ++ tok2)
             [("Authorization", "Bearer " ++ tok1), ("Accept", "application/json"),
              ("User-Agent", USER_AGENT), ("X-Correlation-Id", env.corrId)],
           params := dictInsert "device-id" st.device_id params }] := by
    by_cases h400 : env.resp2.status ≥ 400 <;>
      simp [BuildingLinkClient._request, h1, h2, h401, h400]
  refine ⟨_, _, heq, ?_, ?_, hvalid⟩
  · simp [dictLookup]
  · exact dictLookup_dictInsert_self _ _ _

/-- Witness for C1 (amended) in the concrete C1 scenario. -/
theorem c1_retry_token_via_resolver_witness :
    ∃ req1 req2,
      (BuildingLinkClient._request 0 c1State c1Env "GET" "https://api.test/x" []).2.2
          = [req1, req2] ∧
      dictLookup "Authorization" req1.headers = some ("Bearer " ++ "TOK") ∧
      dictLookup "Authorization" req2.headers = some ("Bearer " ++ "TOK") ∧
      (BuildingLinkAuth.is_token_valid 0 c1Auth = true →
        "TOK" = c1Auth.access_token.getD "" ∧ c1Auth = c1Auth) :=
  c1_retry_token_via_resolver 0 c1State c1Env "GET" "https://api.test/x" []
    "TOK" "TOK" c1Auth c1Auth rfl rfl rfl

/-- The client state of the C2 counterexample scenario: only a refresh
token is stored. -/
def c2State : ClientState :=
  { auth := { username := none, password := none, refresh_token := some "R",
              access_token := none, token_expiry := 0 },
    device_id := "dev", property_id := none, property_legacy_id := none, user_id := none }

/-- The environment of the C2 counterexample: the first token resolution
succeeds via a refresh whose `expires_in` is 0, the first response is a
401, and the second token resolution fails (refresh endpoint unreachable,
no password stored). -/
def c2Env : ReqEnv :=
  { resp1 := { status := 401, json := Json.obj "b1", text := "unauthorized" },
    resp2 := { status := 200, json := Json.obj "b2", text := "ok" },
    refreshHttp1 := RefreshHttp.response 200
      { access_token := some "T", refresh_token := some "R2", expires_in := some 0 } "tr",
    refreshHttp2 := RefreshHttp.netError "boom",
    login1 := LoginEnv.fail "x", login2 := LoginEnv.fail "x",
    corrId := "cid" }

/-- C2 (counterexample): a request whose first response status is 401 and
that is nevertheless not retried: re-resolving the token fails (the token
just obtained already counts as expired, the second refresh hits a
transport error, and no credentials are stored), so the
`AuthenticationError` propagates after a single issued request — neither a
retry nor an `APIError`. -/
theorem c2_counterexample :
    c2Env.resp1.status = 401 ∧
    (BuildingLinkClient._request 0 c2State c2Env "GET" "https://api.test/x" []).2.2.length
        = 1 ∧
    (BuildingLinkClient._request 0 c2State c2Env "GET" "https://api.test/x" []).1
        = Except.error (PyError.authError "No valid authentication method available") :=
  ⟨rfl, rfl, rfl⟩

/-- C2 (amended): given that the initial token resolution succeeds: on a
first status of 401 the request is retried exactly once provided the
second token resolution succeeds (if it fails, its error propagates and no
retry is issued), and a retry status ≥ 400 raises `APIError` with that
status and body while a retry status < 400 returns the parsed JSON body;
a first status ≥ 400 other than 401 raises `APIError` immediately with no
retry; any other first status returns the parsed JSON body with no
retry. -/
theorem c2_request_status_flow (now : Int) (st : ClientState) (env : ReqEnv)
    (method url : String) (params : List (String × String))
    (tok1 : String) (a1 : AuthState)
    (h1 : BuildingLinkAuth.async_get_access_token now st.auth env.refreshHttp1 env.login1
            = (Except.ok tok1, a1)) :
    (env.resp1.status = 401 →
      (∀ tok2 a2,
        BuildingLinkAuth.async_get_access_token now a1 env.refreshHttp2 env.login2
            = (Except.ok tok2, a2) →
        (BuildingLinkClient._request now st env method url params).2.2.length = 2 ∧
        (env.resp2.status ≥ 400 →
          (BuildingLinkClient._request now st env method url params).1
            = Except.error (PyError.apiError env.resp2.status env.resp2.text)) ∧
        (env.resp2.status < 400 →
          (BuildingLinkClient._request now st env method url params).1
            = Except.ok env.resp2.json)) ∧
      (∀ e a2,
        BuildingLinkAuth.async_get_access_token now a1 env.refreshHttp2 env.login2
            = (Except.error e, a2) →
        (BuildingLinkClient._request now st env method url params).1 = Except.error e ∧
        (BuildingLinkClient._request now st env method url params).2.2.length = 1)) ∧
    (env.resp1.status ≠ 401 → env.resp1.status ≥ 400 →
      (BuildingLinkClient._request now st env method url params).1
          = Except.error (PyError.apiError env.resp1.status env.resp1.text) ∧
      (BuildingLinkClient._request now st env method url params).2.2.length = 1) ∧
    (env.resp1.status ≠ 401 → env.resp1.status < 400 →
      (BuildingLinkClient._request now st env method url params).1 = Except.ok env.resp1.json ∧
      (BuildingLinkClient._request now st env method url params).2.2.length = 1) := by
  refine ⟨?_, ?_, ?_⟩
  · intro h401
    constructor
    · intro tok2 a2 h2
      refine ⟨?_, ?_, ?_⟩
      · by_cases h400 : env.resp2.status ≥ 400 <;>
          simp [BuildingLinkClient._request, h1, h2, h401, h400]
      · intro h400
        simp [BuildingLinkClient._request, h1, h2, h401, h400]
      · intro hlt
        have h400 : ¬ env.resp2.status ≥ 400 := by omega
        simp [BuildingLinkClient._request, h1, h2, h401, h400]
    · intro e a2 h2
      constructor <;> simp [BuildingLinkClient._request, h1, h2, h401]
  · intro h401 h400
    constructor <;> simp [BuildingLinkClient._request, h1, h401, h400]
  · intro h401 hlt
    have h400 : ¬ env.resp1.status ≥ 400 := by omega
    constructor <;> simp [BuildingLinkClient._request, h1, h401, h400]

/-- The client state of the C2 witness scenario. -/
def c2wState : ClientState :=
  { auth := { username := none, password := none, refresh_token := some "R",
              access_token := none, token_expiry := 0 },
    device_id := "dev", property_id := none, property_legacy_id := none, user_id := none }

/-- The environment of the C2 witness scenario: the first token resolution
refreshes successfully with a 900 second expiry, the first response is a
401, and the retry succeeds with status 200. -/
def c2wEnv : ReqEnv :=
  { resp1 := { status := 401, json := Json.obj "b1", text := "unauthorized" },
    resp2 := { status := 200, json := Json.obj "b2", text := "ok" },
    refreshHttp1 := RefreshHttp.response 200
      { access_token := some "T", refresh_token := some "R2", expires_in := some 900 } "tr",
    refreshHttp2 := RefreshHttp.netError "unused",
    login1 := LoginEnv.fail "x", login2 := LoginEnv.fail "x",
    corrId := "cid" }

/-- The auth state after the first token resolution of the C2 witness. -/
def c2wAuth : AuthState :=
  { username := none, password := none, refresh_token := some "R2",
    access_token := some "T", token_expiry := 900 }

/-- Witness for C2 (amended): in the witness scenario the 401 leads to
exactly one retry whose 200 response body is returned. -/
theorem c2_request_status_flow_witness :
    (BuildingLinkClient._request 0 c2wState c2wEnv "GET" "https://api.test/x" []).1
        = Except.ok (Json.obj "b2") ∧
    (BuildingLinkClient._request 0 c2wState c2wEnv "GET" "https://api.test/x" []).2.2.length
        = 2 := by
  have h := c2_request_status_flow 0 c2wState c2wEnv "GET" "https://api.test/x" []
    "T" c2wAuth rfl
  have h2 := (h.1 rfl).1 "T" c2wAuth rfl
  exact ⟨h2.2.2 (by decide), h2.1⟩

/-- C8: every HTTP request issued by `_request` carries an `Authorization`
header of the form `Bearer <token>` and a `device-id` query parameter equal
to the client device id, and all caller-supplied query parameters other
than `device-id` are passed through unchanged. -/
theorem c8_request_injects_bearer_and_device_id (now : Int) (st : ClientState) (env : ReqEnv)
    (method url : String) (params : List (String × String)) (req : Request)
    (h : req ∈ (BuildingLinkClient._request now st env method url params).2.2) :
    (∃ t, dictLookup "Authorization" req.headers = some ("Bearer " ++ t)) ∧
    dictLookup "device-id" req.params = some st.device_id ∧
    ∀ k, k ≠ "device-id" → dictLookup k req.params = dictLookup k params := by
  have hreq1 : ∀ (tok : String),
      (∃ t, dictLookup "Authorization"
          [("Authorization", "Bearer " ++ tok), ("Accept", "application/json"),
           ("User-Agent", USER_AGENT), ("X-Correlation-Id", env.corrId)]
        = some ("Bearer " ++ t)) ∧
      dictLookup "device-id" (dictInsert "device-id" st.device_id params)
        = some st.device_id ∧
      ∀ k, k ≠ "device-id" →
        dictLookup k (dictInsert "device-id" st.device_id params) = dictLookup k params := by
    intro tok
    exact ⟨⟨tok, by simp [dictLookup]⟩, dictLookup_dictInsert_self _ _ _,
      fun k hk => dictLookup_dictInsert_ne _ _ _ _ hk⟩
  have hreq2 : ∀ (tok1 tok2 : String),
      (∃ t, dictLookup "Authorization"
          (dictInsert "Authorization" ("Bearer " ++ tok2)
            [("Authorization", "Bearer " ++ tok1), ("Accept", "application/json"),
             ("User-Agent", USER_AGENT), ("X-Correlation-Id", env.corrId)])
        = some ("Bearer " ++ t)) := by
    intro tok1 tok2
    exact ⟨tok2, dictLookup_dictInsert_self _ _ _⟩
  unfold BuildingLinkClient._request at h
  rcases hg1 : BuildingLinkAuth.async_get_access_token now st.auth env.refreshHttp1 env.login1
    with ⟨r1, a1⟩
  rw [hg1] at h
  cases r1 with
  | error e => simp at h
  | ok tok1 =>
      simp only [] at h
      rcases hg2 : BuildingLinkAuth.async_get_access_token now a1 env.refreshHttp2 env.login2
        with ⟨r2, a2⟩
      rw [hg2] at h
      by_cases h401 : env.resp1.status = 401
      · cases r2 with
        | error e2 =>
            simp only [if_pos h401, List.mem_singleton] at h
            subst h
            exact ⟨(hreq1 tok1).1, (hreq1 tok1).2⟩
        | ok tok2 =>
            by_cases h400 : env.resp2.status ≥ 400
            · simp only [if_pos h401, if_pos h400, List.mem_cons,
                List.not_mem_nil, or_false] at h
              rcases h with rfl | rfl
              · exact ⟨(hreq1 tok1).1, (hreq1 tok1).2⟩
              · exact ⟨hreq2 tok1 tok2, (hreq1 tok1).2⟩
            · simp only [if_pos h401, if_neg h400, List.mem_cons,
                List.not_mem_nil, or_false] at h
              rcases h with rfl | rfl
              · exact ⟨(hreq1 tok1).1, (hreq1 tok1).2⟩
              · exact ⟨hreq2 tok1 tok2, (hreq1 tok1).2⟩
      · by_cases h400 : env.resp1.status ≥ 400
        · simp only [if_neg h401, if_pos h400, List.mem_singleton] at h
          subst h
          exact ⟨(hreq1 tok1).1, (hreq1 tok1).2⟩
        · simp only [if_neg h401, if_neg h400, List.mem_singleton] at h
          subst h
          exact ⟨(hreq1 tok1).1, (hreq1 tok1).2⟩

/-- Witness for C8: a concrete call whose trace is nonempty. -/
theorem c8_request_injects_bearer_and_device_id_witness :
    (∃ t, dictLookup "Authorization"
        [("Authorization", "Bearer " ++ "T"), ("Accept", "application/json"),
         ("User-Agent", USER_AGENT), ("X-Correlation-Id", "cid")]
      = some ("Bearer " ++ t)) ∧
    dictLookup "device-id"
        [("format", "json"), ("device-id", "dev")] = some "dev" ∧
    ∀ k, k ≠ "device-id" →
      dictLookup k [("format", "json"), ("device-id", "dev")]
        = dictLookup k [("format", "json")] := by
  have h := c8_request_injects_bearer_and_device_id 0
    { auth := { username := none, password := none, refresh_token := none,
                access_token := some "T", token_expiry := 1000 },
      device_id := "dev", property_id := none, property_legacy_id := none, user_id := none }
    { resp1 := { status := 200, json := Json.obj "b", text := "ok" },
      resp2 := { status := 200, json := Json.obj "b", text := "ok" },
      refreshHttp1 := RefreshHttp.netError "x", refreshHttp2 := RefreshHttp.netError "x",
      login1 := LoginEnv.fail "x", login2 := LoginEnv.fail "x", corrId := "cid" }
    "GET" "https://example.test" [("format", "json")]
    { method := "GET", url := "https://example.test",
      headers := [("Authorization", "Bearer " ++ "T"), ("Accept", "application/json"),
                  ("User-Agent", USER_AGENT), ("X-Correlation-Id", "cid")],
      params := [("format", "json"), ("device-id", "dev")] }
    (by decide)
  exact h

/-- The auth state of the C3 counterexample: credentials and a refresh
token, no access token yet. -/
def c3Auth : AuthState :=
  { username := some "u", password := some "p", refresh_token := some "R",
    access_token := none, token_expiry := 0 }

/-- The token endpoint response of the C3 counterexample: a successful
refresh whose access token is the empty string. -/
def c3Http : RefreshHttp :=
  RefreshHttp.response 200
    { access_token := some "", refresh_token := none, expires_in := some 900 } "tr"

/-- C3 (counterexample): with a refresh token present and a refresh
attempt that succeeds (no `AuthenticationError`), the credential login
flow nevertheless runs and its token is returned, because the refresh
stored a falsy (empty) access token — contradicting the claim that the
login flow runs only when the refresh token is absent or the refresh
raised. -/
theorem c3_counterexample :
    pyTruthy c3Auth.refresh_token = true ∧
    (BuildingLinkAuth.async_refresh_token 0 c3Auth c3Http).1
      = Except.ok { access_token := some "", refresh_token := none, expires_in := some 900 } ∧
    (BuildingLinkAuth.async_get_access_token 0 c3Auth c3Http (LoginEnv.formToken "LOGIN")).1
      = Except.ok "LOGIN" :=
  ⟨rfl, rfl, rfl⟩

/-- C3 (amended): `async_get_access_token` resolves in this order — a
locally valid stored token is returned unchanged with no effect on the
state; otherwise, with a truthy refresh token a refresh is attempted first
and its token is returned when the refresh succeeds and stores a truthy
access token; the credential login fallback (which requires truthy
username and password, else `AuthenticationError`) runs exactly in the
remaining cases: refresh token absent, refresh raised
`AuthenticationError`, or refresh succeeded but stored a falsy access
token; any non-`AuthenticationError` exception of the refresh
propagates. -/
theorem c3_token_resolution_order (now : Int) (s : AuthState) (http : RefreshHttp)
    (login : LoginEnv) :
    (BuildingLinkAuth.is_token_valid now s = true →
      BuildingLinkAuth.async_get_access_token now s http login
        = (Except.ok (s.access_token.getD ""), s)) ∧
    (BuildingLinkAuth.is_token_valid now s = false → pyTruthy s.refresh_token = false →
      BuildingLinkAuth.async_get_access_token now s http login
        = BuildingLinkAuth.fallbackLogin now s login) ∧
    (BuildingLinkAuth.is_token_valid now s = false → pyTruthy s.refresh_token = true →
      ∀ r s1, BuildingLinkAuth.async_refresh_token now s http = (Except.ok r, s1) →
        (pyTruthy s1.access_token = true →
          BuildingLinkAuth.async_get_access_token now s http login
            = (Except.ok (s1.access_token.getD ""), s1)) ∧
        (pyTruthy s1.access_token = false →
          BuildingLinkAuth.async_get_access_token now s http login
            = BuildingLinkAuth.fallbackLogin now s1 login)) ∧
    (BuildingLinkAuth.is_token_valid now s = false → pyTruthy s.refresh_token = true →
      ∀ m s1, BuildingLinkAuth.async_refresh_token now s http
          = (Except.error (PyError.authError m), s1) →
        BuildingLinkAuth.async_get_access_token now s http login
          = BuildingLinkAuth.fallbackLogin now s1 login) ∧
    (BuildingLinkAuth.is_token_valid now s = false → pyTruthy s.refresh_token = true →
      ∀ e s1, BuildingLinkAuth.async_refresh_token now s http = (Except.error e, s1) →
        (∀ m, e ≠ PyError.authError m) →
        BuildingLinkAuth.async_get_access_token now s http login = (Except.error e, s1)) ∧
    ((pyTruthy s.username && pyTruthy s.password) = true →
      BuildingLinkAuth.fallbackLogin now s login
        = BuildingLinkAuth.async_login_with_credentials now s login) ∧
    ((pyTruthy s.username && pyTruthy s.password) = false →
      BuildingLinkAuth.fallbackLogin now s login
        = (Except.error (PyError.authError "No valid authentication method available"), s)) := by
  refine ⟨?_, ?_, ?_, ?_, ?_, ?_, ?_⟩
  · exact get_access_token_of_valid now s http login
  · intro hv hrt
    simp [BuildingLinkAuth.async_get_access_token, hv, hrt]
  · intro hv hrt r s1 href
    constructor
    · intro hacc
      simp [BuildingLinkAuth.async_get_access_token, hv, hrt, href, hacc]
    · intro hacc
      simp [BuildingLinkAuth.async_get_access_token, hv, hrt, href, hacc]
  · intro hv hrt m s1 href
    simp [BuildingLinkAuth.async_get_access_token, hv, hrt, href]
  · intro hv hrt e s1 href hne
    cases e with
    | authError m => exact absurd rfl (hne m)
    | apiError status msg =>
        simp [BuildingLinkAuth.async_get_access_token, hv, hrt, href]
    | keyError k =>
        simp [BuildingLinkAuth.async_get_access_token, hv, hrt, href]
  · intro hcred
    simp [BuildingLinkAuth.fallbackLogin, hcred]
  · intro hcred
    simp [BuildingLinkAuth.fallbackLogin, hcred]

/-- The auth state of the C3 witness: only a refresh token, no valid
access token. -/
def c3wAuth : AuthState :=
  { username := none, password := none, refresh_token := some "R",
    access_token := none, token_expiry := 0 }

/-- The token endpoint response of the C3 witness: a successful refresh
with a truthy access token. -/
def c3wHttp : RefreshHttp :=
  RefreshHttp.response 200
    { access_token := some "T", refresh_token := none, expires_in := some 900 } "tr"

/-- Witness for C3 (amended): the refresh path returns the refreshed
token. -/
theorem c3_token_resolution_order_witness :
    BuildingLinkAuth.async_get_access_token 0 c3wAuth c3wHttp (LoginEnv.fail "x")
      = (Except.ok "T",
         { username := none, password := none, refresh_token := some "R",
           access_token := some "T", token_expiry := 900 }) := by
  have h := (c3_token_resolution_order 0 c3wAuth c3wHttp (LoginEnv.fail "x")).2.2.1
    rfl rfl
    { access_token := some "T", refresh_token := none, expires_in := some 900 }
    { username := none, password := none, refresh_token := some "R",
      access_token := some "T", token_expiry := 900 }
    rfl
  exact h.1 rfl

/-- C9 (counterexample): an HTML document with a hidden form input that
carries a `name` but no `value` attribute makes `_get_hidden_inputs` raise
`KeyError` instead of returning a mapping. -/
theorem c9_counterexample :
    _get_hidden_inputs
        { formInputs := [{ attrs := [("type", "hidden"), ("name", "x")] }] }
      = Except.error (PyError.keyError "value") :=
  rfl

/-- Lemma: `hiddenFold` never raises and computes the dict of the kept name/value
pairs when every selected element with a `name` attribute also has a
`value` attribute. -/
theorem hiddenFold_ok (l : List InputEl) (acc : List (String × String))
    (h : ∀ el ∈ l, (dictLookup "name" el.attrs).isSome = true →
          (dictLookup "value" el.attrs).isSome = true) :
    hiddenFold l acc
      = Except.ok ((l.filterMap pickNamed).foldl
          (fun acc p => dictInsert p.1 p.2 acc) acc) := by
  induction l generalizing acc with
  | nil => rfl
  | cons el rest ih =>
      have hrest : ∀ x ∈ rest, (dictLookup "name" x.attrs).isSome = true →
          (dictLookup "value" x.attrs).isSome = true :=
        fun x hx => h x (List.mem_cons_of_mem _ hx)
      cases hn : dictLookup "name" el.attrs with
      | none =>
          rw [List.filterMap_cons]
          simp only [hiddenFold, hn, pickNamed]
          exact ih acc hrest
      | some n =>
          have hv := h el (List.mem_cons_self _ _) (by simp [hn])
          cases hval : dictLookup "value" el.attrs with
          | none => simp [hval] at hv
          | some v =>
              rw [List.filterMap_cons]
              simp only [hiddenFold, hn, hval, pickNamed]
              exact ih _ hrest

/-- C9 (amended): whenever every hidden form input that carries a `name`
attribute also carries a `value` attribute, `_get_hidden_inputs` returns
(without raising) the dict built, in document order, from the name/value
pairs of exactly the hidden form inputs that carry a `name` attribute —
hidden inputs without a `name` are silently skipped; when some named
hidden input lacks a `value`, the function instead raises `KeyError`. -/
theorem c9_hidden_inputs_mapping (d : HtmlDoc)
    (h : ∀ el ∈ xpathHiddenFormInputs d, (dictLookup "name" el.attrs).isSome = true →
          (dictLookup "value" el.attrs).isSome = true) :
    _get_hidden_inputs d
      = Except.ok ((hiddenPairs d).foldl (fun acc p => dictInsert p.1 p.2 acc) []) :=
  hiddenFold_ok (xpathHiddenFormInputs d) [] h

/-- Witness for C9 (amended) on the HTML form of the repository's own
test: two named hidden inputs with values and one text input. -/
theorem c9_hidden_inputs_mapping_witness :
    _get_hidden_inputs
        { formInputs :=
            [{ attrs := [("type", "hidden"), ("name", "csrf"), ("value", "abc123")] },
             { attrs := [("type", "hidden"), ("name", "state"), ("value", "xyz")] },
             { attrs := [("type", "text"), ("name", "username"), ("value", "")] }] }
      = Except.ok [("csrf", "abc123"), ("state", "xyz")] :=
  c9_hidden_inputs_mapping
    { formInputs :=
        [{ attrs := [("type", "hidden"), ("name", "csrf"), ("value", "abc123")] },
         { attrs := [("type", "hidden"), ("name", "state"), ("value", "xyz")] },
         { attrs := [("type", "text"), ("name", "username"), ("value", "")] }] }
    (by decide)

/-- Witness for C10 at a concrete incomplete context. -/
theorem c10_contacts_requires_context_witness :
    BuildingLinkClient.async_get_contacts 0
      { auth := { username := some "u", password := some "p", refresh_token := none,
                  access_token := some "T", token_expiry := 1000 },
        device_id := "dev", property_id := some "prop", property_legacy_id := some 5,
        user_id := none }
      { resp1 := { status := 200, json := Json.arr ["c1"], text := "ok" },
        resp2 := { status := 200, json := Json.arr ["c1"], text := "ok" },
        refreshHttp1 := RefreshHttp.netError "x", refreshHttp2 := RefreshHttp.netError "x",
        login1 := LoginEnv.fail "x", login2 := LoginEnv.fail "x", corrId := "cid" }
      = (Except.ok [],
         { username := some "u", password := some "p", refresh_token := none,
           access_token := some "T", token_expiry := 1000 }, []) :=
  (c10_contacts_requires_context 0 _ _).1 (Or.inr rfl)
